import Mathlib

/-!
Shallow embedding of the poll-widget repository (src/src/components/PollWidget.js
and src/src/lib/time-ago.js) for checking the specification claims.

Machine numbers that can become NaN or Infinity in JavaScript (the bar-width
division in `updated`) are modelled by the `JsNum` type below; vote counts,
timestamps and timer handles are natural numbers; the DOM and network are
modelled by explicit request values and an explicit timer environment.
-/

set_option autoImplicit false

/-- Result of a JavaScript floating-point computation that may produce a
division-by-zero artifact: either NaN, an infinity, or a finite value
(modelled exactly as a rational). -/
inductive JsNum where
  | nan
  | posInf
  | negInf
  | val (q : ℚ)
deriving DecidableEq

/-- The id of a poll option: the source allows a number or a string
(`id: 1, // Unique id, can be number or string`). -/
inductive OptionId where
  | num (n : ℕ)
  | str (s : String)
deriving DecidableEq

/-- One entry of `this.options`: `{ id, text, votes }` per the documented
response format in PollWidget.js. -/
structure PollOption where
  id : OptionId
  text : String
  votes : ℕ
deriving DecidableEq

/-- A parsed JSON response of the read or write endpoint:
`{ question: string, options: [{ id, text, votes }, ...] }`. -/
structure PollResult where
  question : String
  options : List PollOption
deriving DecidableEq

/-- `Math.max(...list)`: `-Infinity` on the empty argument list, otherwise the
left fold of binary max over the arguments. -/
def jsMathMax : List ℕ → JsNum
  | [] => .negInf
  | v :: vs => .val ((vs.foldl Nat.max v : ℕ) : ℚ)

/-- JavaScript division of a non-negative finite number by a `JsNum`:
division by zero yields NaN when the numerator is 0 and +Infinity otherwise;
division of a finite value by an infinity yields 0. -/
def jsDivNatJs (a : ℕ) (d : JsNum) : JsNum :=
  match d with
  | .nan => .nan
  | .posInf => .val 0
  | .negInf => .val 0
  | .val q => if q = 0 then (if a = 0 then .nan else .posInf) else .val (a / q)

/-- Multiplication of a `JsNum` by the positive constant 90, as in
`(option.votes / largetVote) * 90`. -/
def jsScale90 : JsNum → JsNum
  | .nan => .nan
  | .posInf => .posInf
  | .negInf => .negInf
  | .val q => .val (q * 90)

/-- `const largetVote = Math.max(...this.options.map(option => option.votes))`
(PollWidget.js line 172; the variable name is the source spelling). -/
def largetVote (options : List PollOption) : JsNum :=
  jsMathMax (options.map PollOption.votes)

/-- `const percentages = this.options.map(option => (option.votes / largetVote) * 90)`
(PollWidget.js line 173). -/
def percentages (options : List PollOption) : List JsNum :=
  options.map (fun o => jsScale90 (jsDivNatJs o.votes (largetVote options)))

/-- Specification-side name for the maximum vote count over the option list
(`max_j votes_j` in the spec), as a natural number. -/
def maxVotes (options : List PollOption) : ℕ :=
  (options.map PollOption.votes).foldr Nat.max 0

/-- Total number of votes across all options. -/
def totalVotes (options : List PollOption) : ℕ :=
  (options.map PollOption.votes).sum

example : percentages [⟨.num 1, "A", 2⟩, ⟨.num 2, "B", 8⟩]
    = [JsNum.val (45/2), JsNum.val 90] := by
  norm_num [percentages, largetVote, jsMathMax, jsDivNatJs, jsScale90]

example : percentages [⟨.num 1, "A", 0⟩, ⟨.num 2, "B", 0⟩]
    = [JsNum.nan, JsNum.nan] := by
  norm_num [percentages, largetVote, jsMathMax, jsDivNatJs, jsScale90]

/-- The instance fields of the PollWidget element. Reactive properties and the
private timer field are modelled together; `_updateTime` is an abstract clock
value (a natural number standing for the Date), and `_intervalTimer` holds the
interval handle returned by setInterval, when armed. -/
structure WidgetState where
  _showResults : Bool
  _updateTime : ℕ
  requestAPI : String
  voteAPI : String
  width : ℕ
  height : ℕ
  question : String
  options : List PollOption
  updateFrequency : ℕ
  timeAgo : Bool
  _intervalTimer : Option ℕ
deriving DecidableEq

/-- The constructor of PollWidget (lines 146-158): initial field values.
`now` is the clock value of `new Date()` at construction; `_intervalTimer`
is not assigned by the constructor, hence `none`. -/
def pollWidgetInit (now : ℕ) : WidgetState :=
  { _showResults := false
    _updateTime := now
    requestAPI := ""
    voteAPI := ""
    width := 0
    height := 0
    question := "What is your favorite JS View library?"
    options := [⟨.num 1, "Lit", 0⟩, ⟨.num 2, "React", 0⟩, ⟨.num 3, "Angular", 0⟩]
    updateFrequency := 60
    timeAgo := true
    _intervalTimer := none }

/-- The body of the vote request, `JSON.stringify({id})`: a JSON object with
the single field `id` holding the clicked option id as read from the DOM
dataset (dataset values are strings). -/
structure VoteBody where
  id : String
deriving DecidableEq

/-- An outbound fetch call, as configured at the call site: URL, method,
request mode, Content-Type header and body when present. -/
structure FetchRequest where
  url : String
  method : String
  mode : Option String
  contentType : Option String
  body : Option VoteBody
deriving DecidableEq

/-- `updateView(result)` (lines 259-263): overwrite the question and the whole
option list with the payload values and set `_updateTime` to the current
clock value. -/
def updateView (s : WidgetState) (result : PollResult) (now : ℕ) : WidgetState :=
  { s with
    question := result.question
    options := result.options
    _updateTime := now }

/-- The request issued by `updatePollResults` (line 239): `fetch(this.requestAPI)`
with no options object, hence method GET, no mode, no headers, no body. -/
def updatePollResultsRequest (s : WidgetState) : FetchRequest :=
  { url := s.requestAPI, method := "GET", mode := none, contentType := none, body := none }

/-- Response handling of `updatePollResults` (lines 240-242): parse the JSON
and pass it to `updateView`. -/
def updatePollResultsOnResponse (s : WidgetState) (result : PollResult) (now : ℕ) : WidgetState :=
  updateView s result now

/-- The request issued by `castVote(id)` (lines 246-253): a PATCH to
`this.voteAPI` with mode cors, Content-Type application/json and body
`JSON.stringify({id})`. -/
def castVoteRequest (s : WidgetState) (id : String) : FetchRequest :=
  { url := s.voteAPI
    method := "PATCH"
    mode := some "cors"
    contentType := some "application/json"
    body := some ⟨id⟩ }

/-- Response handling of `castVote` (lines 255-256): parse the JSON and pass
it to `updateView`, exactly as the refresh path does. -/
def castVoteOnResponse (s : WidgetState) (result : PollResult) (now : ℕ) : WidgetState :=
  updateView s result now

/-- `handleOptionClick` (lines 228-236): if `_showResults` is already true the
handler returns immediately and no request is made; otherwise it sets
`_showResults := true` synchronously and then calls `castVote` with the
clicked option id, producing one outbound vote request. -/
def handleOptionClick (s : WidgetState) (clickedId : String) : WidgetState × Option FetchRequest :=
  if s._showResults then (s, none)
  else ({ s with _showResults := true }, some (castVoteRequest s clickedId))

/-- A sequence of option-click events within one mount: fold
`handleOptionClick` over the clicked ids, collecting every outbound vote
request that is issued. -/
def processClicks : WidgetState → List String → WidgetState × List FetchRequest
  | s, [] => (s, [])
  | s, id :: rest =>
    match handleOptionClick s id with
    | (s1, req) =>
      match processClicks s1 rest with
      | (s2, reqs) => (s2, req.toList ++ reqs)

/-- The timer environment of the page: the set of live intervals (handle and
delay in milliseconds) and the next fresh handle. Browsers return a positive
integer from setInterval, so handles start at 1 and every live handle is
below `nextHandle`. -/
structure TimerEnv where
  nextHandle : ℕ
  active : List (ℕ × ℕ)
deriving DecidableEq

/-- The timer environment of a freshly loaded page: no live interval. -/
def TimerEnv.init : TimerEnv := { nextHandle := 1, active := [] }

/-- `setInterval(callback, delay)`: register a new live interval under a fresh
handle and return the handle. -/
def setIntervalEnv (e : TimerEnv) (delay : ℕ) : TimerEnv × ℕ :=
  ({ nextHandle := e.nextHandle + 1, active := (e.nextHandle, delay) :: e.active }, e.nextHandle)

/-- `clearInterval(handle)`: remove the interval with that handle;
`clearInterval(undefined)` (modelled by `none`) is a no-op. -/
def clearIntervalEnv (e : TimerEnv) (h : Option ℕ) : TimerEnv :=
  match h with
  | none => e
  | some hd => { e with active := e.active.filter (fun p => p.1 ≠ hd) }

/-- `setupPollUpdater` (lines 265-271): only when `this._intervalTimer` is not
set (handles are nonzero, so JS truthiness of the field coincides with the
option being `some`), call setInterval with delay
`this.updateFrequency * 60 * 1000` and store the returned handle. -/
def setupPollUpdater (s : WidgetState) (e : TimerEnv) : WidgetState × TimerEnv :=
  match s._intervalTimer with
  | some _ => (s, e)
  | none =>
    match setIntervalEnv e (s.updateFrequency * 60 * 1000) with
    | (e1, h) => ({ s with _intervalTimer := some h }, e1)

/-- `teardownPollUpdater` (lines 273-276): unconditionally clearInterval the
stored handle and delete the field. -/
def teardownPollUpdater (s : WidgetState) (e : TimerEnv) : WidgetState × TimerEnv :=
  ({ s with _intervalTimer := none }, clearIntervalEnv e s._intervalTimer)

/-- `connectedCallback` (lines 160-164): immediately start `updatePollResults`
(whose outbound read request is returned alongside the new state) and arm the
poll updater. -/
def connectedCallback (s : WidgetState) (e : TimerEnv) :
    (WidgetState × TimerEnv) × FetchRequest :=
  (setupPollUpdater s e, updatePollResultsRequest s)

/-- `disconnectedCallback` (lines 166-168): tear the poll updater down. -/
def disconnectedCallback (s : WidgetState) (e : TimerEnv) : WidgetState × TimerEnv :=
  teardownPollUpdater s e

/-- Whether a handle currently has a live interval in the environment. -/
def timerFires (e : TimerEnv) (h : ℕ) : Bool :=
  e.active.any (fun p => p.1 = h)

/-- One expiry of the refresh interval: the periodic callback is
`this.updatePollResults.bind(this)`, so if the widget holds a live interval
handle, a read request is issued; otherwise nothing happens. -/
def intervalTick (s : WidgetState) (e : TimerEnv) : Option FetchRequest :=
  match s._intervalTimer with
  | none => none
  | some h => if timerFires e h then some (updatePollResultsRequest s) else none

/-- The instance fields of TimeAgoDirective (time-ago.js): the interval handle
when the one-second timer runs, the timestamp being formatted, and the lit
connection status. -/
structure TimeAgoDirective where
  timer : Option ℕ
  time : ℕ
  isConnected : Bool
deriving DecidableEq

/-- `ensureTimerStarted` (time-ago.js lines 20-26): start the one-second
interval only if no timer is running yet. -/
def ensureTimerStarted (d : TimeAgoDirective) (e : TimerEnv) : TimeAgoDirective × TimerEnv :=
  match d.timer with
  | some _ => (d, e)
  | none =>
    match setIntervalEnv e 1000 with
    | (e1, h) => ({ d with timer := some h }, e1)

/-- `ensureTimerStopped` (time-ago.js lines 28-31): clearInterval the handle
and reset the field to undefined. -/
def ensureTimerStopped (d : TimeAgoDirective) (e : TimerEnv) : TimeAgoDirective × TimerEnv :=
  ({ d with timer := none }, clearIntervalEnv e d.timer)

/-- `disconnected` (time-ago.js lines 33-35): stop the timer. -/
def timeAgoDisconnected (d : TimeAgoDirective) (e : TimerEnv) : TimeAgoDirective × TimerEnv :=
  ensureTimerStopped d e

/-- One expiry of the one-second label timer: when the directive holds a live
interval handle, `setValue(this.render(this.time))` runs, i.e. the label is
recomputed from the stored time; otherwise no update occurs. -/
def timeAgoTick (d : TimeAgoDirective) (e : TimerEnv) : Option ℕ :=
  match d.timer with
  | none => none
  | some h => if timerFires e h then some d.time else none

/-- `updated(changedProperties)` (lines 170-182): when the option list changed
and results are shown, each option bar is animated from width 90 percent to
`percentages[idx]` percent, targeting the bar by option id; the returned list
pairs each option id with its final width keyframe. In every other case no
animation runs. -/
def updated (s : WidgetState) (optionsChanged : Bool) : List (OptionId × JsNum) :=
  if optionsChanged && s._showResults then
    (s.options.zip (percentages s.options)).map (fun p => (p.1.id, p.2))
  else []

lemma zip_self_map {α β : Type} (l : List α) (g : α → β) :
    l.zip (l.map g) = l.map (fun a => (a, g a)) := by
  simpa using List.zip_map' (fun a => a) g l

lemma foldl_max_eq_foldr (v : ℕ) (vs : List ℕ) :
    vs.foldl Nat.max v = Nat.max v (vs.foldr Nat.max 0) := by
  induction vs generalizing v with
  | nil => simp
  | cons x xs ih => simp only [List.foldl_cons, List.foldr_cons, ih, Nat.max_assoc]

lemma largetVote_eq_val (options : List PollOption) (h : options ≠ []) :
    largetVote options = .val (maxVotes options) := by
  cases options with
  | nil => cases h rfl
  | cons o os => simp [largetVote, jsMathMax, maxVotes, foldl_max_eq_foldr]

lemma maxVotes_cons (o : PollOption) (os : List PollOption) :
    maxVotes (o :: os) = Nat.max o.votes (maxVotes os) := rfl

lemma totalVotes_cons (o : PollOption) (os : List PollOption) :
    totalVotes (o :: os) = o.votes + totalVotes os := by
  simp [totalVotes]

lemma maxVotes_pos (options : List PollOption) (h : 1 ≤ totalVotes options) :
    1 ≤ maxVotes options := by
  induction options with
  | nil => simp [totalVotes] at h
  | cons o os ih =>
    rw [totalVotes_cons] at h
    rw [maxVotes_cons]
    rcases Nat.eq_zero_or_pos o.votes with h0 | h1
    · exact le_trans (ih (by omega)) (Nat.le_max_right _ _)
    · exact le_trans h1 (Nat.le_max_left _ _)

/-- C1: for every poll state with results revealed and at least one vote in
total, the animation run by `updated` gives each option a final bar width of
`(votes_i / max_j votes_j) * 90` percent, and every option holding the maximum
vote count gets exactly 90 percent. -/
theorem revealed_bar_widths (s : WidgetState) (h1 : s._showResults = true)
    (h2 : 1 ≤ totalVotes s.options) :
    updated s true
      = s.options.map (fun o =>
          (o.id, JsNum.val (((o.votes : ℚ) / (maxVotes s.options : ℚ)) * 90))) ∧
    ∀ o ∈ s.options, o.votes = maxVotes s.options →
      jsScale90 (jsDivNatJs o.votes (largetVote s.options)) = JsNum.val 90 := by
  have hne : s.options ≠ [] := by
    intro he
    rw [he] at h2
    simp [totalVotes] at h2
  have hL : largetVote s.options = .val (maxVotes s.options) :=
    largetVote_eq_val _ hne
  have hm0 : ((maxVotes s.options : ℕ) : ℚ) ≠ 0 := by
    exact_mod_cast Nat.one_le_iff_ne_zero.mp (maxVotes_pos _ h2)
  constructor
  · simp only [updated, h1, Bool.and_self, if_true, percentages]
    rw [zip_self_map, List.map_map]
    refine List.map_congr_left ?_
    intro o _
    simp [Function.comp, hL, jsDivNatJs, jsScale90, hm0]
  · intro o _ hvo
    rw [hL]
    simp only [jsDivNatJs, if_neg hm0, jsScale90, hvo]
    rw [div_self hm0, one_mul]

/-- A concrete revealed widget state with 2 + 8 = 10 total votes. -/
def exState : WidgetState :=
  { pollWidgetInit 0 with
    _showResults := true
    options := [⟨.num 1, "A", 2⟩, ⟨.num 2, "B", 8⟩] }

/-- Witness for C1 at the concrete revealed state `exState`. -/
theorem revealed_bar_widths_witness :
    (exState._showResults = true ∧ 1 ≤ totalVotes exState.options) ∧
    (updated exState true
        = exState.options.map (fun o =>
            (o.id, JsNum.val (((o.votes : ℚ) / (maxVotes exState.options : ℚ)) * 90))) ∧
      ∀ o ∈ exState.options, o.votes = maxVotes exState.options →
        jsScale90 (jsDivNatJs o.votes (largetVote exState.options)) = JsNum.val 90) :=
  ⟨⟨rfl, by decide⟩, revealed_bar_widths exState rfl (by decide)⟩

/-- A concrete revealed widget state in which every option has 0 votes. -/
def allZeroState : WidgetState :=
  { pollWidgetInit 0 with
    _showResults := true
    options := [⟨.num 1, "A", 0⟩, ⟨.num 2, "B", 0⟩] }

/-- C2: with every vote count 0 and results revealed, the animation divides
0 by 0, so every rendered bar width is NaN rather than the clamped 0 the
specification requires. -/
theorem zero_votes_width_nan :
    updated allZeroState true
      = [(OptionId.num 1, JsNum.nan), (OptionId.num 2, JsNum.nan)] := by
  norm_num [updated, allZeroState, pollWidgetInit, percentages, largetVote,
    jsMathMax, jsDivNatJs, jsScale90]

lemma processClicks_shown (s : WidgetState) (h : s._showResults = true) (ids : List String) :
    processClicks s ids = (s, []) := by
  induction ids with
  | nil => rfl
  | cons i rest ih => simp [processClicks, handleOptionClick, h, ih]

/-- C3: over any sequence of option clicks within one mount, the visibility
flag starts false, is true exactly after the first click and never reverts,
and the number of outbound vote requests is `min clicks 1`, hence at most
one. -/
theorem visibility_flag_once (now : ℕ) (ids : List String) :
    (pollWidgetInit now)._showResults = false ∧
    (processClicks (pollWidgetInit now) ids).1._showResults = !ids.isEmpty ∧
    (processClicks (pollWidgetInit now) ids).2.length = min ids.length 1 := by
  cases ids with
  | nil => exact ⟨rfl, rfl, rfl⟩
  | cons i rest =>
    have h1 : handleOptionClick (pollWidgetInit now) i
        = ({ pollWidgetInit now with _showResults := true },
            some (castVoteRequest (pollWidgetInit now) i)) := by
      simp [handleOptionClick, pollWidgetInit]
    have h2 := processClicks_shown { pollWidgetInit now with _showResults := true } rfl rest
    refine ⟨rfl, ?_, ?_⟩
    · simp [processClicks, h1, h2]
    · simp only [processClicks, h1, h2, Option.toList_some, List.singleton_append,
        List.length_cons, List.length_nil]
      omega

/-- C4: both response paths are exactly `updateView`, which replaces the
question and the whole option list by the payload values and sets the
last-update timestamp to the current clock value. -/
theorem response_mirrors_payload (s : WidgetState) (r : PollResult) (now : ℕ) :
    updatePollResultsOnResponse s r now = updateView s r now ∧
    castVoteOnResponse s r now = updateView s r now ∧
    (updateView s r now).question = r.question ∧
    (updateView s r now).options = r.options ∧
    (updateView s r now)._updateTime = now :=
  ⟨rfl, rfl, rfl, rfl, rfl⟩

/-- C5: a click while the flag is still false sets the flag in the returned
state (in the source, `this._showResults = true` runs before `castVote` is
awaited) and issues exactly the PATCH described by `castVoteRequest`: write
endpoint URL, Content-Type application/json, body `{id}`; the response is
merged by the same `updateView` path as the refresh loop. -/
theorem vote_action_effects (s : WidgetState) (id : String) (r : PollResult) (now : ℕ)
    (h : s._showResults = false) :
    handleOptionClick s id
      = ({ s with _showResults := true }, some (castVoteRequest s id)) ∧
    (castVoteRequest s id).method = "PATCH" ∧
    (castVoteRequest s id).url = s.voteAPI ∧
    (castVoteRequest s id).contentType = some "application/json" ∧
    (castVoteRequest s id).body = some ⟨id⟩ ∧
    castVoteOnResponse { s with _showResults := true } r now
      = updatePollResultsOnResponse { s with _showResults := true } r now := by
  refine ⟨?_, rfl, rfl, rfl, rfl, rfl⟩
  simp [handleOptionClick, h]

/-- The payload of the C5 example in the specification. -/
def exResult : PollResult :=
  ⟨"Q", [⟨.num 1, "A", 2⟩, ⟨.num 2, "B", 9⟩]⟩

/-- Witness for C5 at the freshly constructed state. -/
theorem vote_action_effects_witness :
    (pollWidgetInit 0)._showResults = false ∧
    (handleOptionClick (pollWidgetInit 0) "2"
        = ({ pollWidgetInit 0 with _showResults := true },
            some (castVoteRequest (pollWidgetInit 0) "2")) ∧
      (castVoteRequest (pollWidgetInit 0) "2").method = "PATCH" ∧
      (castVoteRequest (pollWidgetInit 0) "2").url = (pollWidgetInit 0).voteAPI ∧
      (castVoteRequest (pollWidgetInit 0) "2").contentType = some "application/json" ∧
      (castVoteRequest (pollWidgetInit 0) "2").body = some ⟨"2"⟩ ∧
      castVoteOnResponse { pollWidgetInit 0 with _showResults := true } exResult 5
        = updatePollResultsOnResponse { pollWidgetInit 0 with _showResults := true } exResult 5) :=
  ⟨rfl, vote_action_effects (pollWidgetInit 0) "2" exResult 5 rfl⟩

/-- C6: on mount, `connectedCallback` immediately issues one GET to the read
endpoint and, when no interval is armed yet, arms the refresh interval with
delay `updateFrequency * 60000` milliseconds. -/
theorem refresh_loop_activation (s : WidgetState) (e : TimerEnv)
    (h : s._intervalTimer = none) :
    (connectedCallback s e).2 = updatePollResultsRequest s ∧
    (updatePollResultsRequest s).method = "GET" ∧
    (updatePollResultsRequest s).url = s.requestAPI ∧
    (connectedCallback s e).1.1._intervalTimer = some e.nextHandle ∧
    (e.nextHandle, s.updateFrequency * 60000) ∈ (connectedCallback s e).1.2.active := by
  have h60 : s.updateFrequency * 60 * 1000 = s.updateFrequency * 60000 := by
    omega
  refine ⟨rfl, rfl, rfl, ?_, ?_⟩
  · simp [connectedCallback, setupPollUpdater, h, setIntervalEnv]
  · simp only [connectedCallback, setupPollUpdater, h, setIntervalEnv, h60]
    exact List.mem_cons_self _ _

/-- Witness for C6 at the freshly constructed state and the fresh timer
environment. -/
theorem refresh_loop_activation_witness :
    (pollWidgetInit 0)._intervalTimer = none ∧
    ((connectedCallback (pollWidgetInit 0) TimerEnv.init).2
        = updatePollResultsRequest (pollWidgetInit 0) ∧
      (updatePollResultsRequest (pollWidgetInit 0)).method = "GET" ∧
      (updatePollResultsRequest (pollWidgetInit 0)).url = (pollWidgetInit 0).requestAPI ∧
      (connectedCallback (pollWidgetInit 0) TimerEnv.init).1.1._intervalTimer
        = some TimerEnv.init.nextHandle ∧
      (TimerEnv.init.nextHandle, (pollWidgetInit 0).updateFrequency * 60000)
        ∈ (connectedCallback (pollWidgetInit 0) TimerEnv.init).1.2.active) :=
  ⟨rfl, refresh_loop_activation (pollWidgetInit 0) TimerEnv.init rfl⟩

/-- A widget state whose refresh interval is armed under handle 1. -/
def armedState : WidgetState :=
  { pollWidgetInit 0 with _intervalTimer := some 1 }

/-- A timer environment in which handle 1 is a live hourly interval. -/
def armedEnv : TimerEnv :=
  { nextHandle := 2, active := [(1, 3600000)] }

/-- The full unmount event of the widget. The source's `disconnectedCallback`
(lines 166-168) calls only `this.teardownPollUpdater()` and omits
`super.disconnectedCallback()` (unlike `connectedCallback`, which does call
super at line 161). It is the LitElement super call that marks the render
root's parts disconnected and thereby delivers `disconnected()` to
`TimeAgoDirective`; with super omitted, unmount leaves the directive and its
one-second interval untouched. -/
def unmount (s : WidgetState) (d : TimeAgoDirective) (e : TimerEnv) :
    WidgetState × TimeAgoDirective × TimerEnv :=
  match disconnectedCallback s e with
  | (s1, e1) => (s1, d, e1)

/-- A timer environment where the widget refresh interval runs as handle 1
and the label's one-second timer as handle 2. -/
def unmountEnv : TimerEnv :=
  { nextHandle := 3, active := [(1, 3600000), (2, 1000)] }

/-- A connected time-ago directive whose one-second timer runs as handle 2. -/
def labelDirective : TimeAgoDirective :=
  { timer := some 2, time := 42, isConnected := true }

/-- C7: unmounting an armed widget does clear the refresh interval (no
further timer-driven refresh), but because `disconnectedCallback` omits the
`super.disconnectedCallback()` call, `disconnected()` is never delivered to
the time-ago directive: after unmount the directive is unchanged, its
one-second timer is still live, and it still produces a label update,
against the claim. -/
theorem unmount_label_timer_keeps_running :
    intervalTick (unmount armedState labelDirective unmountEnv).1
      (unmount armedState labelDirective unmountEnv).2.2 = none ∧
    timerFires (unmount armedState labelDirective unmountEnv).2.2 1 = false ∧
    (unmount armedState labelDirective unmountEnv).2.1 = labelDirective ∧
    timeAgoTick (unmount armedState labelDirective unmountEnv).2.1
      (unmount armedState labelDirective unmountEnv).2.2 = some 42 := by
  refine ⟨rfl, ?_, rfl, ?_⟩ <;> decide

/-- C8: applying one response after another through `updateView` gives, in
either order, exactly the state produced by the last-resolved response alone:
a whole-state overwrite with no merging or version check. -/
theorem last_resolved_wins (s : WidgetState) (voteR refreshR : PollResult) (t1 t2 : ℕ) :
    updateView (updateView s voteR t1) refreshR t2 = updateView s refreshR t2 ∧
    updateView (updateView s refreshR t1) voteR t2 = updateView s voteR t2 ∧
    (updateView (updateView s voteR t1) refreshR t2).question = refreshR.question ∧
    (updateView (updateView s voteR t1) refreshR t2).options = refreshR.options :=
  ⟨rfl, rfl, rfl, rfl⟩

/-- C9: `updateView` changes only the question, the option list and the
last-update timestamp; the visibility flag, every configuration field and the
interval handle are untouched. -/
theorem update_view_frame (s : WidgetState) (r : PollResult) (now : ℕ) :
    (updateView s r now)._showResults = s._showResults ∧
    (updateView s r now).requestAPI = s.requestAPI ∧
    (updateView s r now).voteAPI = s.voteAPI ∧
    (updateView s r now).width = s.width ∧
    (updateView s r now).height = s.height ∧
    (updateView s r now).updateFrequency = s.updateFrequency ∧
    (updateView s r now).timeAgo = s.timeAgo ∧
    (updateView s r now)._intervalTimer = s._intervalTimer :=
  ⟨rfl, rfl, rfl, rfl, rfl, rfl, rfl, rfl⟩

/-- The lifecycle entry points that touch the refresh interval. -/
inductive LifecycleOp where
  | connect
  | disconnect
  | setup
  | teardown
deriving DecidableEq

/-- Apply one lifecycle entry point to the widget and the timer environment
(the read request emitted by `connectedCallback` does not touch timers). -/
def applyLifecycleOp (p : WidgetState × TimerEnv) : LifecycleOp → WidgetState × TimerEnv
  | .connect => (connectedCallback p.1 p.2).1
  | .disconnect => disconnectedCallback p.1 p.2
  | .setup => setupPollUpdater p.1 p.2
  | .teardown => teardownPollUpdater p.1 p.2

/-- Run a sequence of lifecycle entry points. -/
def runLifecycle (p : WidgetState × TimerEnv) : List LifecycleOp → WidgetState × TimerEnv
  | [] => p
  | op :: ops => runLifecycle (applyLifecycleOp p op) ops

/-- The live intervals of the environment currently owned by the widget. -/
def ownedActive (s : WidgetState) (e : TimerEnv) : List (ℕ × ℕ) :=
  e.active.filter (fun p => s._intervalTimer = some p.1)

/-- Well-formedness of the timer environment: every live handle was issued
before the next fresh one. -/
def EnvWF (e : TimerEnv) : Prop :=
  ∀ p ∈ e.active, p.1 < e.nextHandle

/-- The single-timer invariant: the environment is well formed and the widget
owns at most one live interval. -/
def TimerInv (s : WidgetState) (e : TimerEnv) : Prop :=
  EnvWF e ∧ (ownedActive s e).length ≤ 1

lemma ownedActive_none (s : WidgetState) (e : TimerEnv) (h : s._intervalTimer = none) :
    ownedActive s e = [] := by
  simp [ownedActive, h]

lemma timerInv_setup (s : WidgetState) (e : TimerEnv) (h : TimerInv s e) :
    TimerInv (setupPollUpdater s e).1 (setupPollUpdater s e).2 := by
  obtain ⟨hwf, hlen⟩ := h
  cases hs : s._intervalTimer with
  | some k =>
    simp only [setupPollUpdater, hs]
    exact ⟨hwf, hlen⟩
  | none =>
    constructor
    · intro p hp
      simp only [setupPollUpdater, hs, setIntervalEnv, List.mem_cons] at hp ⊢
      rcases hp with rfl | hp
      · simp
      · exact lt_trans (hwf p hp) (Nat.lt_succ_self _)
    · have hrest : e.active.filter (fun p => decide (e.nextHandle = p.1)) = [] := by
        rw [List.filter_eq_nil_iff]
        rintro ⟨a, b⟩ hab
        have hlt := hwf ⟨a, b⟩ hab
        simp only [decide_eq_true_eq]
        omega
      simp only [setupPollUpdater, hs, setIntervalEnv, ownedActive, Option.some.injEq]
      rw [List.filter_cons_of_pos (by simp), hrest]
      simp

lemma timerInv_teardown (s : WidgetState) (e : TimerEnv) (h : TimerInv s e) :
    TimerInv (teardownPollUpdater s e).1 (teardownPollUpdater s e).2 := by
  obtain ⟨hwf, _⟩ := h
  constructor
  · intro p hp
    cases hs : s._intervalTimer with
    | none =>
      simp only [teardownPollUpdater, hs, clearIntervalEnv] at hp ⊢
      exact hwf p hp
    | some k =>
      simp only [teardownPollUpdater, hs, clearIntervalEnv] at hp ⊢
      exact hwf p (List.mem_of_mem_filter hp)
  · have : (teardownPollUpdater s e).1._intervalTimer = none := rfl
    simp [ownedActive_none _ _ this]

lemma timerInv_step (p : WidgetState × TimerEnv) (op : LifecycleOp) (h : TimerInv p.1 p.2) :
    TimerInv (applyLifecycleOp p op).1 (applyLifecycleOp p op).2 := by
  cases op with
  | connect => exact timerInv_setup p.1 p.2 h
  | disconnect => exact timerInv_teardown p.1 p.2 h
  | setup => exact timerInv_setup p.1 p.2 h
  | teardown => exact timerInv_teardown p.1 p.2 h

lemma timerInv_run (p : WidgetState × TimerEnv) (ops : List LifecycleOp)
    (h : TimerInv p.1 p.2) :
    TimerInv (runLifecycle p ops).1 (runLifecycle p ops).2 := by
  induction ops generalizing p with
  | nil => exact h
  | cons op rest ih => exact ih _ (timerInv_step p op h)

/-- C10: arming the poll updater while a timer is armed is the identity (no
second setInterval call); teardown unconditionally leaves no owned interval
and forgets the handle, after which setup arms a fresh one; and along every
lifecycle sequence from construction the widget owns at most one live
interval. -/
theorem single_refresh_timer (s : WidgetState) (e : TimerEnv)
    (h : s._intervalTimer ≠ none) (now : ℕ) (ops : List LifecycleOp) :
    setupPollUpdater s e = (s, e) ∧
    (teardownPollUpdater s e).1._intervalTimer = none ∧
    ownedActive (teardownPollUpdater s e).1 (teardownPollUpdater s e).2 = [] ∧
    (setupPollUpdater (teardownPollUpdater s e).1 (teardownPollUpdater s e).2).1._intervalTimer
      = some (teardownPollUpdater s e).2.nextHandle ∧
    (ownedActive (runLifecycle (pollWidgetInit now, TimerEnv.init) ops).1
        (runLifecycle (pollWidgetInit now, TimerEnv.init) ops).2).length ≤ 1 := by
  refine ⟨?_, rfl, ?_, ?_, ?_⟩
  · cases hs : s._intervalTimer with
    | none => exact absurd hs h
    | some k => simp [setupPollUpdater, hs]
  · exact ownedActive_none _ _ rfl
  · simp [setupPollUpdater, teardownPollUpdater, setIntervalEnv]
  · have hinit : TimerInv (pollWidgetInit now) TimerEnv.init := by
      constructor
      · intro p hp
        simp [TimerEnv.init] at hp
      · simp [ownedActive_none _ _ (rfl : (pollWidgetInit now)._intervalTimer = none)]
    exact (timerInv_run (pollWidgetInit now, TimerEnv.init) ops hinit).2

/-- Witness for C10 at an armed widget, an environment owning its interval,
and a concrete lifecycle sequence. -/
theorem single_refresh_timer_witness :
    armedState._intervalTimer ≠ none ∧
    (setupPollUpdater armedState armedEnv = (armedState, armedEnv) ∧
      (teardownPollUpdater armedState armedEnv).1._intervalTimer = none ∧
      ownedActive (teardownPollUpdater armedState armedEnv).1
        (teardownPollUpdater armedState armedEnv).2 = [] ∧
      (setupPollUpdater (teardownPollUpdater armedState armedEnv).1
          (teardownPollUpdater armedState armedEnv).2).1._intervalTimer
        = some (teardownPollUpdater armedState armedEnv).2.nextHandle ∧
      (ownedActive
          (runLifecycle (pollWidgetInit 7, TimerEnv.init)
            [.connect, .setup, .connect, .disconnect, .connect]).1
          (runLifecycle (pollWidgetInit 7, TimerEnv.init)
            [.connect, .setup, .connect, .disconnect, .connect]).2).length ≤ 1) :=
  ⟨by decide,
    single_refresh_timer armedState armedEnv (by decide) 7
      [.connect, .setup, .connect, .disconnect, .connect]⟩
